import Mathlib

/-!
Verification of the payroll / bonus computation engine of the
`aitelegrambot` repository, as a shallow embedding in Lean 4.

Money amounts and quantities are modelled as exact rationals (`ℚ`); Python
floats in the source are treated as exact decimal arithmetic, which matches
how the specification states all numeric expectations.  Python dictionaries
keyed by strings are modelled as association lists preserving insertion
order (Python dicts preserve insertion order).  Missing spreadsheet cells
(`NaN`) are modelled by `Option`.

The defining source files are:
  * `salary_folder/salary_update.py` — the product-tier bonus rule
    (`calculate_boiler_bonus`), the aggregation loop of `update_salary`,
    and the bonus summary construction;
  * `salary_update.py` (repository root) — the older price-threshold /
    VAT bonus rule;
  * `utils.py` — `get_gross_profit`, the monthly profit report.
-/

namespace Payroll

/-- Unit sale price and unit purchase cost of one product, as stored in
the `BOILER_PRICES` dictionary of `salary_folder/salary_update.py`. -/
structure BoilerData where
  price : ℚ
  purchase : ℚ
deriving DecidableEq

/-- The static product catalog `BOILER_PRICES` of
`salary_folder/salary_update.py` (lines 10–28), verbatim. -/
def BOILER_PRICES : List (String × BoilerData) :=
  [("alseit_25", ⟨870000, 566500⟩),
   ("alseit_30", ⟨970000, 586500⟩),
   ("alseit_40", ⟨1300000, 646500⟩),
   ("alseit_50", ⟨1400000, 696500⟩),
   ("alseit_60", ⟨1500000, 746500⟩),
   ("alseit_70", ⟨1600000, 796500⟩),
   ("alseit_80", ⟨1800000, 896500⟩),
   ("alseit_90", ⟨2000000, 946500⟩),
   ("alseit_100", ⟨2400000, 1246500⟩),
   ("alseit_120", ⟨3000000, 1546500⟩),
   ("стандарт_16", ⟨790000, 496500⟩),
   ("стандарт_20", ⟨830000, 521500⟩),
   ("мини_20", ⟨750000, 456500⟩),
   ("мини_16", ⟨650000, 396500⟩),
   ("мини_12", ⟨570000, 331500⟩),
   ("balseit_15", ⟨690000, 321000⟩),
   ("balseit_20", ⟨790000, 430000⟩)]

/-- Constant `LOW_DEDUCTION_BOILERS` of `salary_folder/salary_update.py` line 31. -/
def LOW_DEDUCTION_BOILERS : List String :=
  ["мини_12", "мини_16", "мини_20", "alseit_25", "alseit_30"]

def LOW_DEDUCTION_AMOUNT : ℚ := 50000
def HIGH_DEDUCTION_AMOUNT : ℚ := 100000

/-- Manager rate of 5% (`MANAGER_BONUS_RATE = 0.05`). -/
def MANAGER_BONUS_RATE : ℚ := 5 / 100
/-- Supervisor rate of 1% (`ROP_BONUS_RATE = 0.01`). -/
def ROP_BONUS_RATE : ℚ := 1 / 100
/-- Bank tax of 12% (`BANK_TAX_RATE = 0.12`). -/
def BANK_TAX_RATE : ℚ := 12 / 100

/-- Python `dict` lookup on a string-keyed association list (first match). -/
def catalog_lookup (prices : List (String × BoilerData)) (k : String) :
    Option BoilerData :=
  match prices with
  | [] => none
  | (a, b) :: rest => if a = k then some b else catalog_lookup rest k

/-- The delivery deduction used in bonus math, selected purely by the
product's static tier (`salary_folder/salary_update.py` lines 65–68):
50 000 for products listed in `LOW_DEDUCTION_BOILERS`, 100 000 otherwise. -/
def delivery_for_bonus (low_deduction : List String) (boiler_name : String) : ℚ :=
  if boiler_name ∈ low_deduction then LOW_DEDUCTION_AMOUNT else HIGH_DEDUCTION_AMOUNT

/-- Function `calculate_boiler_bonus` of `salary_folder/salary_update.py`
(lines 40–101).  The module-level globals `BOILER_PRICES` and
`LOW_DEDUCTION_BOILERS` are passed explicitly as the first two arguments;
every call about the repository instantiates them with the constants
above.  Returns `(manager_bonus, rop_bonus, profit)`.  The
`delivery_amount` argument is accepted (as in the source signature) and,
as in the source body, never used. -/
def calculate_boiler_bonus (prices : List (String × BoilerData))
    (low_deduction : List String) (boiler_name payment_method : String)
    (delivery_amount accessories quantity : ℚ) : ℚ × ℚ × ℚ :=
  match catalog_lookup prices boiler_name with
  | none => (0, 0, 0)
  | some boiler_data =>
    if boiler_data.price = 0 then (0, 0, 0)
    else
      let total_price := boiler_data.price * quantity
      let total_purchase := boiler_data.purchase * quantity
      let ded := delivery_for_bonus low_deduction boiler_name
      let manager_bonus := (total_price - ded) * MANAGER_BONUS_RATE
      let rop_bonus := (total_price - ded) * ROP_BONUS_RATE
      let profit0 := total_price
      let profit1 :=
        if payment_method ∈ ["банк", "kaspi_pay", "kaspi_magazine"] then
          profit0 - total_price * BANK_TAX_RATE
        else profit0
      let profit2 := profit1 - total_price * (4 / 100)
      let profit3 := profit2 - manager_bonus
      let profit4 := profit3 - total_purchase
      let profit5 := profit4 - accessories
      (manager_bonus, rop_bonus, profit5)

end Payroll

namespace Payroll

/-- C2 scenario catalog: one product `X` with sale price 1 000 000 and
purchase cost 600 000 (spec §8, concrete scenario). -/
def scenario_catalog : List (String × BoilerData) := [("X", ⟨1000000, 600000⟩)]

/-- Loss-scenario catalog (spec §8): product `X` with sale price 1 000 000
and purchase cost 950 000, so the sale is loss-making. -/
def loss_catalog : List (String × BoilerData) := [("X", ⟨1000000, 950000⟩)]

/-- Payment-method normalization of the `update_salary` loop
(`salary_folder/salary_update.py` lines 131–141): `NaN` and unrecognized
strings default to cash ("наличные"). -/
def normalize_payment (pm : Option String) : String :=
  match pm with
  | none => "наличные"
  | some s =>
    let t := s.trim.toLower
    if t ∈ ["нал", "наличные", "наличка", "cash"] then "наличные"
    else if t ∈ ["банк", "банковский", "карта", "bank", "card"] then "банк"
    else "наличные"

/-- Models Python `float(s)` applied to free-text delivery values (lines
156–160): only integer literals are modelled; the parsed amount is passed
to `calculate_boiler_bonus`'s unused `delivery_amount` argument, so the
fractional case is never load-bearing. -/
def parse_number (s : String) : Option ℚ := (s.toInt?).map (fun n => (n : ℚ))

/-- Delivery amount normalization of the `update_salary` loop (lines
147–160) with the environment defaults `DELIVERY_PAY = 55000` and
`DELIVERY_SHOP = 4700`. -/
def delivery_amount_of (d : Option String) : ℚ :=
  match d with
  | none => 0
  | some s =>
    if s = "" then 0
    else
      let t := s.trim.toLower
      if t = "пэй" then 55000
      else if t = "магазин" then 4700
      else (parse_number t).getD 0

/-- One row of the `продажи` (sales) sheet as read by the payroll code.
`none` models a missing cell (`NaN`).  `price` and `purchase` are columns
of the sheet read by other modules (`utils.py`, root `salary_update.py`);
the `salary_folder` pipeline never reads them. -/
structure SalesRow where
  date : String
  order : String
  boiler_name : Option String
  payment_method : Option String
  quantity : Option ℚ
  delivery : Option String
  accessories : Option ℚ
  price : Option ℚ
  purchase : Option ℚ
  manager : String
deriving DecidableEq

/-- The per-row bonus computation of the first `update_salary` loop
(`salary_folder/salary_update.py` lines 117–177): skip rows with no
boiler name, normalize the fields, then call `calculate_boiler_bonus`.
Returns the `(temp_manager_bonus, temp_salary_rop, temp_profit)` triple
(skipped rows keep their initial `0.0`). -/
def row_temps (prices : List (String × BoilerData)) (low : List String)
    (row : SalesRow) : ℚ × ℚ × ℚ :=
  match row.boiler_name with
  | none => (0, 0, 0)
  | some s =>
    if s = "" then (0, 0, 0)
    else
      calculate_boiler_bonus prices low s.trim
        (normalize_payment row.payment_method)
        (delivery_amount_of row.delivery)
        (row.accessories.getD 0)
        (row.quantity.getD 1)

/-- One value of `bonus_dict` of `update_salary` (lines 204–210): the
accumulated `employee ROP` total and the per-manager bonus map of one
`(date, order)` group. -/
structure BonusGroup where
  date : String
  order : String
  ropTotal : ℚ
  managers : List (String × ℚ)
deriving DecidableEq

/-- Python dict read with default 0 (`managers.get`, column sums). -/
def lookup0 (ms : List (String × ℚ)) (k : String) : ℚ :=
  match ms with
  | [] => 0
  | (a, b) :: rest => if a = k then b else lookup0 rest k

/-- Dict update `bonus_dict[key]['managers'][manager] += bonus` (lines 218–220):
insertion-ordered dict update with implicit 0 initialisation. -/
def add_to_managers : List (String × ℚ) → String → ℚ → List (String × ℚ)
  | [], m, b => [(m, b)]
  | (k, v) :: rest, m, b =>
    if k = m then (k, v + b) :: rest else (k, v) :: add_to_managers rest m b

/-- The per-row group update of the second `update_salary` loop (lines
212–223): always add the row's ROP bonus to the group; add the manager
bonus only when the manager is a known roster column (otherwise only a
warning is printed and the bonus is dropped). -/
def upd_group (mcols : List String) (m : String) (mb rb : ℚ)
    (g : BonusGroup) : BonusGroup :=
  let g1 := { g with ropTotal := g.ropTotal + rb }
  if m ∈ mcols then { g1 with managers := add_to_managers g1.managers m mb }
  else g1

/-- Find-or-create of `bonus_dict[key]` (lines 204–210) followed by the
group update; Python dicts preserve insertion order, so a new key is
appended at the end. -/
def bonus_dict_insert (mcols : List String) (date order m : String)
    (mb rb : ℚ) :
    List ((String × String) × BonusGroup) →
    List ((String × String) × BonusGroup)
  | [] => [((date, order), upd_group mcols m mb rb ⟨date, order, 0, []⟩)]
  | (k, g) :: rest =>
    if k = (date, order) then (k, upd_group mcols m mb rb g) :: rest
    else (k, g) :: bonus_dict_insert mcols date order m mb rb rest

/-- One iteration of the grouping loop (lines 195–223): rows without a
boiler name are skipped; all others (resolvable or not) are inserted. -/
def bonus_dict_step (prices : List (String × BoilerData)) (low : List String)
    (mcols : List String) (acc : List ((String × String) × BonusGroup))
    (row : SalesRow) : List ((String × String) × BonusGroup) :=
  match row.boiler_name with
  | none => acc
  | some s =>
    if s = "" then acc
    else
      bonus_dict_insert mcols row.date row.order row.manager
        (row_temps prices low row).1 (row_temps prices low row).2.1 acc

/-- The full `bonus_dict` of `update_salary` (lines 193–223). -/
def bonus_dict (prices : List (String × BoilerData)) (low : List String)
    (mcols : List String) (sales : List SalesRow) :
    List ((String × String) × BonusGroup) :=
  sales.foldl (bonus_dict_step prices low mcols) []

/-- Total `employee ROP` over all groups: the sum of the ledger's
`employee ROP` column. -/
def dict_rop_total (d : List ((String × String) × BonusGroup)) : ℚ :=
  (d.map (fun p => p.2.ropTotal)).sum

/-- Total bonus of manager `m` over all groups: the sum of the ledger's
column `m`. -/
def dict_manager_total (m : String)
    (d : List ((String × String) × BonusGroup)) : ℚ :=
  (d.map (fun p => lookup0 p.2.managers m)).sum

/-- Python dict assignment `new_row[k] = v` on a string-keyed row:
overwrite in place, or append a fresh key. -/
def set_col : List (String × ℚ) → String → ℚ → List (String × ℚ)
  | [], k, v => [(k, v)]
  | (a, b) :: rest, k, v =>
    if a = k then (k, v) :: rest else (a, b) :: set_col rest k v

/-- One row of the aggregated ledger (`rows` built in lines 227–238).
The `date`/`order` values of the Python row dict are kept in dedicated
fields; their numeric column slots keep the initial 0, which nothing
sums. -/
structure LedgerRow where
  date : String
  order : String
  cols : List (String × ℚ)
deriving DecidableEq

/-- Assignment `new_row = {col: 0 for col in salary.columns}` followed by the
`employee ROP` and per-manager assignments (lines 229–236). -/
def ledger_row_of_group (salary_cols : List String) (g : BonusGroup) :
    LedgerRow :=
  let base := salary_cols.map (fun c => (c, (0 : ℚ)))
  let r1 := set_col base "employee ROP" g.ropTotal
  { date := g.date, order := g.order,
    cols := g.managers.foldl (fun r p => set_col r p.1 p.2) r1 }

/-- The `sales_salary` ledger (lines 227–240): one row per group, in
insertion order. -/
def ledger_of_dict (salary_cols : List String)
    (d : List ((String × String) × BonusGroup)) : List LedgerRow :=
  d.map (fun p => ledger_row_of_group salary_cols p.2)

/-- Column sum `sales_salary[c].sum()` over the modelled ledger rows. -/
def ledger_col_sum (c : String) (rows : List LedgerRow) : ℚ :=
  (rows.map (fun r => lookup0 r.cols c)).sum

/-- Constant `exclude_cols` of `update_salary` line 187. -/
def exclude_cols : List String :=
  ["date", "order", "developer", "employee ROP", "assistant", "assistant 2",
   "supplier manager"]

/-- Constant `fixed_salary_cols` of `update_salary` line 259. -/
def fixed_salary_cols : List String :=
  ["developer", "assistant", "assistant 2", "supplier manager"]

/-- One row of the `сводка_бонусов` summary: the `Тип` label and the
`Сумма` amount. -/
structure SummaryLine where
  tip : String
  summa : ℚ
deriving DecidableEq

/-- The summary lines before the final total (`update_salary` lines
247–283): the ROP pool line (always present), fixed-salary roles with a
positive base salary, and managers with a positive base-plus-bonus
total. -/
def bonus_summary_lines (salary_cols : List String)
    (oklad : List (String × ℚ)) (manager_cols : List String)
    (ledger : List LedgerRow) : List SummaryLine :=
  let rop_oklad := lookup0 oklad "employee ROP"
  let total_rop_bonus := ledger_col_sum "employee ROP" ledger
  let l0 : List SummaryLine := [⟨"ROP сотрудники", rop_oklad + total_rop_bonus⟩]
  let l1 := l0 ++ (fixed_salary_cols.filter (fun c => c ∈ salary_cols)).filterMap
    (fun c =>
      let o := lookup0 oklad c
      if 0 < o then some ⟨c, o⟩ else none)
  l1 ++ manager_cols.filterMap
    (fun c =>
      if c ∈ salary_cols then
        let o := lookup0 oklad c
        let b := ledger_col_sum c ledger
        if 0 < o + b then some ⟨c, o + b⟩ else none
      else none)

/-- The full summary (lines 247–292): the lines above followed by the
`ОБЩАЯ СУММА` line whose amount is the (left-to-right) sum of every
preceding line's amount — exactly
`sum(item['Сумма'] for item in bonus_summary)`. -/
def bonus_summary_full (salary_cols : List String)
    (oklad : List (String × ℚ)) (manager_cols : List String)
    (ledger : List LedgerRow) : List SummaryLine :=
  let l := bonus_summary_lines salary_cols oklad manager_cols ledger
  l ++ [⟨"ОБЩАЯ СУММА", (l.map (fun x => x.summa)).sum⟩]

/-- The in-memory aggregation of `update_salary`
(`salary_folder/salary_update.py` lines 103–292), with Excel I/O replaced
by explicit arguments and results.  `salary_rows` are the data rows of
the `зарплата` sheet as string-keyed records.  Pandas exceptions are
modelled as `Except.error`: `salary.iloc[[0]]` raises `IndexError` on an
empty sheet (line 243); `salary_oklad['employee ROP']` raises `KeyError`
when the column is missing (line 250); and
`sales_salary['employee ROP'].sum()` raises `KeyError` when no ledger row
was produced, because `pd.DataFrame([])` has no columns (line 251). -/
def update_salary_model (sales : List SalesRow) (salary_cols : List String)
    (salary_rows : List (List (String × ℚ))) :
    Except String (List LedgerRow × List SummaryLine) :=
  let manager_cols := salary_cols.filter (fun c => c ∉ exclude_cols)
  let d := bonus_dict BOILER_PRICES LOW_DEDUCTION_BOILERS manager_cols sales
  let ledger := ledger_of_dict salary_cols d
  match salary_rows.head? with
  | none => Except.error "IndexError: positional indexers are out-of-bounds"
  | some oklad =>
    if "employee ROP" ∈ salary_cols then
      if ledger.isEmpty then Except.error "KeyError: employee ROP"
      else
        Except.ok (ledger, bonus_summary_full salary_cols oklad manager_cols ledger)
    else Except.error "KeyError: employee ROP"

/-! ### The older price-threshold / VAT bonus rule (root `salary_update.py`) -/

def vat_rate : ℚ := 16 / 100
def low_price_threshold : ℚ := 300000
def low_price_deduction : ℚ := 50000
def high_price_deduction : ℚ := 100000

/-- Round half to even, the rounding used by pandas `Series.round`. -/
def round_half_even (x : ℚ) : ℤ :=
  if x - ⌊x⌋ < 1 / 2 then ⌊x⌋
  else if 1 / 2 < x - ⌊x⌋ then ⌊x⌋ + 1
  else if ⌊x⌋ % 2 = 0 then ⌊x⌋ else ⌊x⌋ + 1

/-- Rounding `.round(2)` applied to the VAT column (root `salary_update.py`
line 33). -/
def round2 (x : ℚ) : ℚ := (round_half_even (x * 100) : ℚ) / 100

/-- Delivery map `sales['delivery'].map({'пэй': 55000, 'магазин': 4700}).fillna(0)`
(root `salary_update.py` lines 34–35): exact-string map, no trimming, no
numeric parsing, everything else becomes 0. -/
def delivery_cost_map (d : Option String) : ℚ :=
  match d with
  | none => 0
  | some s => if s = "пэй" then 55000 else if s = "магазин" then 4700 else 0

/-- The per-row bonus computation of the root `salary_update.py`
(lines 29–44), with the environment defaults `VAT_RATE = 0.16`,
`LOW_PRICE_THRESHOLD = 300000`, `LOW_PRICE_DEDUCTION = 50000`,
`HIGH_PRICE_DEDUCTION = 100000`, `MANAGER_BONUS_RATE = 0.05` and
`ROP_BONUS_RATE = 0.01`.  `price` and `purchase` come from the sales
sheet's columns.  Returns `(manager_bonus, salary_rop, profit)`. -/
def threshold_bonus (price purchase quantity : ℚ) (delivery : Option String) :
    ℚ × ℚ × ℚ :=
  let total_price := price * quantity
  let total_purchase := purchase * quantity
  let vat := round2 (total_price * vat_rate)
  let delivery_cost := delivery_cost_map delivery
  let base_amount := total_price - vat - delivery_cost
  let deduction :=
    if total_price < low_price_threshold then low_price_deduction
    else high_price_deduction
  let manager_bonus := (base_amount - deduction) * (5 / 100)
  let salary_rop := (base_amount - deduction) * (1 / 100)
  let profit := total_price - vat - total_purchase - delivery_cost -
    manager_bonus - salary_rop
  (manager_bonus, salary_rop, profit)

/-! ### The monthly profit report (`utils.py`, `get_gross_profit`) -/

/-- One sales row as read by `get_gross_profit` (`utils.py` lines
233–239). -/
structure GrossRow where
  boiler_name : Option String
  price : Option ℚ
  quantity : Option ℚ
  payment_method : Option String
  accessories : Option ℚ
  purchase : Option ℚ
deriving DecidableEq

/-- The per-row net profit of `get_gross_profit` (`utils.py` lines
233–301): rows with an empty/`nan`/unknown/zero-priced boiler name are
skipped (contribute 0); the price and purchase cost come from the sales
sheet, the deduction tier from the catalog; the payment method is
compared raw (no normalization); the ROP bonus is not subtracted here. -/
def gross_profit_row (row : GrossRow) : ℚ :=
  match row.boiler_name with
  | none => 0
  | some s0 =>
    let s := s0.trim
    if s = "" ∨ s = "nan" then 0
    else
      match catalog_lookup BOILER_PRICES s with
      | none => 0
      | some bd =>
        if bd.price = 0 then 0
        else
          let price := row.price.getD 0
          let quantity := row.quantity.getD 1
          let purchase := row.purchase.getD 0
          let accessories := row.accessories.getD 0
          let total_price := price * quantity
          let total_purchase := purchase * quantity
          let ded := delivery_for_bonus LOW_DEDUCTION_BOILERS s
          let manager_bonus := (total_price - ded) * MANAGER_BONUS_RATE
          let profit0 := total_price
          let profit1 :=
            if row.payment_method.getD "наличные" ∈
                ["банк", "kaspi_pay", "kaspi_magazine"] then
              profit0 - total_price * BANK_TAX_RATE
            else profit0
          let profit2 := profit1 - total_price * (4 / 100)
          let profit3 := profit2 - manager_bonus
          let profit4 := profit3 - total_purchase
          profit4 - accessories

/-- Function `get_gross_profit` (`utils.py` lines 186–314) on the rows of the
current month: total per-row net profit, minus office expenses, clamped
at zero by `max(0.0, final_profit)` (line 314).  The wall-clock month
filter and the spreadsheet cache are external; the model receives the
already-filtered monthly rows.  An empty month returns 0 early
(lines 205–226). -/
def get_gross_profit_model (monthly : List GrossRow) (office_expenses : ℚ) : ℚ :=
  if monthly.isEmpty then 0
  else max 0 ((monthly.map gross_profit_row).sum - office_expenses)

/-! ### Concrete inputs used by witnesses and counterexamples -/

/-- A single sale row with an unrecognized boiler name. -/
def w5_row : SalesRow :=
  { date := "01.01.2025", order := "1", boiler_name := some "unknown",
    payment_method := some "наличные", quantity := some 1, delivery := none,
    accessories := some 0, price := none, purchase := none, manager := "Alice" }

/-- A sale of `alseit_25` credited to a manager absent from the roster. -/
def w6_row : SalesRow :=
  { date := "02.01.2025", order := "2", boiler_name := some "alseit_25",
    payment_method := some "наличные", quantity := some 1, delivery := none,
    accessories := some 0, price := none, purchase := none, manager := "Bob" }

def w6_cols : List String := ["date", "order", "employee ROP", "Alice"]

def w6_oklad : List (String × ℚ) :=
  [("date", 0), ("order", 0), ("employee ROP", 100000), ("Alice", 150000)]

/-- A sale of `alseit_25` whose sheet `price` cell (1) differs from the
catalog price (870 000). -/
def w7_row : SalesRow :=
  { date := "03.01.2025", order := "3", boiler_name := some "alseit_25",
    payment_method := some "наличные", quantity := some 1, delivery := none,
    accessories := some 0, price := some 1, purchase := some 1,
    manager := "Alice" }

/-- A sale row with an unrecognized boiler name, used as the single row
of the C1 witness run. -/
def w1_row : SalesRow :=
  { date := "04.01.2025", order := "4", boiler_name := some "x",
    payment_method := none, quantity := none, delivery := none,
    accessories := none, price := none, purchase := none, manager := "M" }

def w1_cols : List String := ["date", "order", "employee ROP"]

def w1_oklad : List (String × ℚ) := [("date", 0), ("order", 0), ("employee ROP", 0)]

def w1_ledger : List LedgerRow :=
  [{ date := "04.01.2025", order := "4",
     cols := [("date", 0), ("order", 0), ("employee ROP", 0)] }]

def w1_summary : List SummaryLine :=
  [⟨"ROP сотрудники", 0⟩, ⟨"ОБЩАЯ СУММА", 0⟩]

/-- A loss-making month: `alseit_25` sold at sheet price 870 000 with
sheet purchase cost 900 000. -/
def loss_row : GrossRow :=
  { boiler_name := some "alseit_25", price := some 870000, quantity := some 1,
    payment_method := some "наличные", accessories := some 0,
    purchase := some 900000 }

end Payroll

open Payroll

/-! ### Helper lemmas about the grouping dictionary -/

theorem lookup0_add_to_managers (ms : List (String × ℚ)) (m : String) (b : ℚ)
    (k : String) :
    lookup0 (add_to_managers ms m b) k =
      lookup0 ms k + (if m = k then b else 0) := by
  induction ms with
  | nil =>
    by_cases h : m = k <;> simp [add_to_managers, lookup0, h]
  | cons p rest ih =>
    obtain ⟨a, v⟩ := p
    by_cases ham : a = m
    · subst ham
      by_cases hak : a = k <;> simp [add_to_managers, lookup0, hak]
    · by_cases hak : a = k
      · subst hak
        have hmk : ¬m = a := fun hc => ham hc.symm
        simp [add_to_managers, ham, lookup0, hmk]
      · simp [add_to_managers, ham, lookup0, hak, ih]

theorem upd_group_ropTotal (mcols : List String) (m : String) (mb rb : ℚ)
    (g : BonusGroup) :
    (upd_group mcols m mb rb g).ropTotal = g.ropTotal + rb := by
  unfold upd_group
  by_cases h : m ∈ mcols <;> simp [h]

theorem upd_group_managers (mcols : List String) (m : String) (mb rb : ℚ)
    (g : BonusGroup) (k : String) :
    lookup0 (upd_group mcols m mb rb g).managers k =
      lookup0 g.managers k + (if m ∈ mcols ∧ m = k then mb else 0) := by
  unfold upd_group
  by_cases h : m ∈ mcols
  · simp [h, lookup0_add_to_managers]
  · simp [h]

theorem dict_rop_total_cons (p : (String × String) × BonusGroup)
    (l : List ((String × String) × BonusGroup)) :
    dict_rop_total (p :: l) = p.2.ropTotal + dict_rop_total l := by
  simp [dict_rop_total]

theorem dict_manager_total_cons (k : String)
    (p : (String × String) × BonusGroup)
    (l : List ((String × String) × BonusGroup)) :
    dict_manager_total k (p :: l) =
      lookup0 p.2.managers k + dict_manager_total k l := by
  simp [dict_manager_total]

theorem dict_rop_total_insert (mcols : List String) (date order m : String)
    (mb rb : ℚ) (acc : List ((String × String) × BonusGroup)) :
    dict_rop_total (bonus_dict_insert mcols date order m mb rb acc) =
      dict_rop_total acc + rb := by
  induction acc with
  | nil =>
    simp [bonus_dict_insert, dict_rop_total, upd_group_ropTotal]
  | cons p rest ih =>
    obtain ⟨k, g⟩ := p
    by_cases h : k = (date, order)
    · rw [bonus_dict_insert, if_pos h, dict_rop_total_cons, dict_rop_total_cons,
        upd_group_ropTotal]
      ring
    · rw [bonus_dict_insert, if_neg h, dict_rop_total_cons, dict_rop_total_cons, ih]
      ring

theorem dict_manager_total_insert (mcols : List String) (date order m : String)
    (mb rb : ℚ) (k : String) (acc : List ((String × String) × BonusGroup)) :
    dict_manager_total k (bonus_dict_insert mcols date order m mb rb acc) =
      dict_manager_total k acc + (if m ∈ mcols ∧ m = k then mb else 0) := by
  induction acc with
  | nil =>
    simp [bonus_dict_insert, dict_manager_total, upd_group_managers, lookup0]
  | cons p rest ih =>
    obtain ⟨kk, g⟩ := p
    by_cases h : kk = (date, order)
    · rw [bonus_dict_insert, if_pos h, dict_manager_total_cons,
        dict_manager_total_cons, upd_group_managers]
      ring
    · rw [bonus_dict_insert, if_neg h, dict_manager_total_cons,
        dict_manager_total_cons, ih]
      ring

theorem bonus_dict_insert_ne_nil (mcols : List String) (date order m : String)
    (mb rb : ℚ) (acc : List ((String × String) × BonusGroup)) :
    bonus_dict_insert mcols date order m mb rb acc ≠ [] := by
  cases acc with
  | nil => simp [bonus_dict_insert]
  | cons p rest =>
    obtain ⟨k, g⟩ := p
    by_cases h : k = (date, order) <;> simp [bonus_dict_insert, h]

theorem bonus_dict_append_single (prices : List (String × BoilerData))
    (low mcols : List String) (sales : List SalesRow) (row : SalesRow) :
    bonus_dict prices low mcols (sales ++ [row]) =
      bonus_dict_step prices low mcols (bonus_dict prices low mcols sales) row := by
  simp [bonus_dict, List.foldl_append]

theorem row_temps_some (prices : List (String × BoilerData)) (low : List String)
    (row : SalesRow) (s : String) (hb : row.boiler_name = some s)
    (hs : s ≠ "") :
    row_temps prices low row =
      calculate_boiler_bonus prices low s.trim
        (normalize_payment row.payment_method)
        (delivery_amount_of row.delivery)
        (row.accessories.getD 0) (row.quantity.getD 1) := by
  unfold row_temps
  rw [hb]
  exact if_neg hs

theorem bonus_dict_step_some (prices : List (String × BoilerData))
    (low mcols : List String) (acc : List ((String × String) × BonusGroup))
    (row : SalesRow) (s : String) (hb : row.boiler_name = some s)
    (hs : s ≠ "") :
    bonus_dict_step prices low mcols acc row =
      bonus_dict_insert mcols row.date row.order row.manager
        (row_temps prices low row).1 (row_temps prices low row).2.1 acc := by
  unfold bonus_dict_step
  rw [hb]
  exact if_neg hs

theorem bonus_dict_step_skip (prices : List (String × BoilerData))
    (low mcols : List String) (acc : List ((String × String) × BonusGroup))
    (row : SalesRow) (hb : row.boiler_name = some "") :
    bonus_dict_step prices low mcols acc row = acc := by
  unfold bonus_dict_step
  rw [hb]
  exact if_pos rfl

/-- Shared zero-result lemma: an unresolvable or zero-priced product makes
`calculate_boiler_bonus` return `(0, 0, 0)` for every payment method,
delivery amount, accessories value and quantity. -/
theorem calc_zero_of_unresolved (prices : List (String × BoilerData))
    (low : List String) (bname : String)
    (h : catalog_lookup prices bname = none ∨
         ∃ bd, catalog_lookup prices bname = some bd ∧ bd.price = 0)
    (pm : String) (d acc q : ℚ) :
    calculate_boiler_bonus prices low bname pm d acc q = (0, 0, 0) := by
  unfold calculate_boiler_bonus
  rcases h with h | ⟨bd, h1, h2⟩
  · rw [h]
  · rw [h1]
    simp [h2]

/-- C2: with catalog sale price 1 000 000, purchase cost 600 000, high
deduction tier (100 000), quantity 1, cash payment, zero accessories and
rates 5% / 1%, the bonus calculator returns manager_bonus = 45 000,
rop_bonus = 9 000 and net_profit = 1 000 000 − 40 000 − 45 000 − 600 000 − 0
= 315 000, with no bank tax because payment is cash. -/
theorem C2_concrete_scenario :
    Payroll.calculate_boiler_bonus Payroll.scenario_catalog
      Payroll.LOW_DEDUCTION_BOILERS "X" "наличные" 0 0 1 =
      (45000, 9000, 1000000 - 40000 - 45000 - 600000 - 0) := by
  with_unfolding_all rfl

/-- C4: the delivery deduction used in bonus math is a function of the
product's static tier only (50 000 for low-deduction products, 100 000
otherwise), and two runs of the bonus calculator that differ only in
payment method and delivery amount produce the same manager_bonus and the
same rop_bonus.  (The calculator takes no transaction price: the price is
read from the catalog, so the bonuses cannot depend on one.) -/
theorem C4_deduction_tier_only (prices : List (String × Payroll.BoilerData))
    (low : List String) (bname pm1 pm2 : String) (d1 d2 acc q : ℚ) :
    Payroll.delivery_for_bonus low bname =
      (if bname ∈ low then Payroll.LOW_DEDUCTION_AMOUNT
       else Payroll.HIGH_DEDUCTION_AMOUNT) ∧
    (Payroll.calculate_boiler_bonus prices low bname pm1 d1 acc q).1 =
      (Payroll.calculate_boiler_bonus prices low bname pm2 d2 acc q).1 ∧
    (Payroll.calculate_boiler_bonus prices low bname pm1 d1 acc q).2.1 =
      (Payroll.calculate_boiler_bonus prices low bname pm2 d2 acc q).2.1 := by
  refine ⟨rfl, ?_, ?_⟩ <;>
  · unfold Payroll.calculate_boiler_bonus
    cases Payroll.catalog_lookup prices bname with
    | none => rfl
    | some bd =>
      by_cases h : bd.price = 0 <;> simp [h]

/-- C9: for any resolvable product with nonzero catalog price, whatever the
payment method, delivery amount, accessories and quantity, the manager
bonus equals exactly five times the ROP bonus: both are the same base times
the fixed rates 5% and 1%. -/
theorem C9_manager_is_five_times_rop (prices : List (String × Payroll.BoilerData))
    (low : List String) (bname pm : String) (d acc q : ℚ)
    (bd : Payroll.BoilerData)
    (h1 : Payroll.catalog_lookup prices bname = some bd)
    (h2 : bd.price ≠ 0) :
    (Payroll.calculate_boiler_bonus prices low bname pm d acc q).1 =
      5 * (Payroll.calculate_boiler_bonus prices low bname pm d acc q).2.1 := by
  unfold Payroll.calculate_boiler_bonus
  rw [h1]
  simp only [if_neg h2]
  unfold Payroll.MANAGER_BONUS_RATE Payroll.ROP_BONUS_RATE
  ring

/-- Witness for C9 at a concrete input: `alseit_25` (price 870 000 ≠ 0),
cash, quantity 1: manager bonus 41 000 = 5 · 8 200. -/
theorem C9_manager_is_five_times_rop_witness :
    (Payroll.calculate_boiler_bonus Payroll.BOILER_PRICES
      Payroll.LOW_DEDUCTION_BOILERS "alseit_25" "наличные" 0 0 1).1 =
      5 * (Payroll.calculate_boiler_bonus Payroll.BOILER_PRICES
      Payroll.LOW_DEDUCTION_BOILERS "alseit_25" "наличные" 0 0 1).2.1 :=
  C9_manager_is_five_times_rop Payroll.BOILER_PRICES
    Payroll.LOW_DEDUCTION_BOILERS "alseit_25" "наличные" 0 0 1
    ⟨870000, 566500⟩ rfl (by norm_num)

/-- C1: for every input set of sale transactions and base-salary row on
which the aggregator succeeds, the final `ОБЩАЯ СУММА` line of the bonus
summary equals the sum, in build order and in the same exact
representation, of all preceding summary lines' amounts. -/
theorem C1_summary_reconciliation (sales : List SalesRow)
    (salary_cols : List String) (salary_rows : List (List (String × ℚ)))
    (ledger : List LedgerRow) (summary : List SummaryLine)
    (h : update_salary_model sales salary_cols salary_rows =
      Except.ok (ledger, summary)) :
    summary.getLast? =
      some ⟨"ОБЩАЯ СУММА", ((summary.dropLast).map (fun l => l.summa)).sum⟩ := by
  simp only [update_salary_model] at h
  split at h
  · exact Except.noConfusion h
  · split at h
    · split at h
      · exact Except.noConfusion h
      · injection h with h'
        injection h' with hl hs
        subst hs
        simp only [bonus_summary_full]
        rw [List.getLast?_concat, List.dropLast_concat]
    · exact Except.noConfusion h

/-- Witness for C1 on a concrete successful run: one sale row with an
unrecognized boiler, one zero base-salary row. -/
theorem C1_summary_reconciliation_witness :
    w1_summary.getLast? =
      some ⟨"ОБЩАЯ СУММА", ((w1_summary.dropLast).map (fun l => l.summa)).sum⟩ :=
  C1_summary_reconciliation [w1_row] w1_cols [w1_oklad] w1_ledger w1_summary
    (by with_unfolding_all rfl)

/-- C3: on the empty period the aggregator raises rather than returning
an empty ledger with a single zero summary line — with zero roster rows
`salary.iloc[[0]]` raises `IndexError`, and with a base-salary row but
zero transactions `sales_salary['employee ROP']` raises `KeyError`
because `pd.DataFrame([])` has no columns. -/
theorem C3_empty_period_raises :
    update_salary_model [] ["date", "order", "employee ROP"] [] =
      Except.error "IndexError: positional indexers are out-of-bounds" ∧
    update_salary_model [] ["date", "order", "employee ROP"] [w1_oklad] =
      Except.error "KeyError: employee ROP" :=
  ⟨rfl, rfl⟩

/-- C5: a transaction whose product is not in the catalog, or whose
catalog entry has a zero sale price, gets the zero bonus result
`(0, 0, 0)`, and appending such a line to any run changes neither the
total `employee ROP` column sum nor any manager's column sum. -/
theorem C5_zero_price_skip (bname pm : String) (d acc q : ℚ)
    (h : catalog_lookup BOILER_PRICES bname = none ∨
         ∃ bd, catalog_lookup BOILER_PRICES bname = some bd ∧ bd.price = 0) :
    calculate_boiler_bonus BOILER_PRICES LOW_DEDUCTION_BOILERS bname pm d acc q =
      (0, 0, 0) ∧
    ∀ (mcols : List String) (sales : List SalesRow) (row : SalesRow),
      row.boiler_name.map String.trim = some bname →
      dict_rop_total (bonus_dict BOILER_PRICES LOW_DEDUCTION_BOILERS mcols
          (sales ++ [row])) =
        dict_rop_total (bonus_dict BOILER_PRICES LOW_DEDUCTION_BOILERS mcols sales) ∧
      ∀ m, dict_manager_total m (bonus_dict BOILER_PRICES LOW_DEDUCTION_BOILERS
          mcols (sales ++ [row])) =
        dict_manager_total m (bonus_dict BOILER_PRICES LOW_DEDUCTION_BOILERS
          mcols sales) := by
  refine ⟨calc_zero_of_unresolved _ _ _ h pm d acc q, ?_⟩
  intro mcols sales row hrow
  rw [bonus_dict_append_single]
  cases hb : row.boiler_name with
  | none => rw [hb] at hrow; exact Option.noConfusion hrow
  | some s =>
    rw [hb] at hrow
    simp only [Option.map_some'] at hrow
    injection hrow with hrow
    by_cases hs : s = ""
    · rw [bonus_dict_step_skip _ _ _ _ _ (by rw [hb, hs])]
      exact ⟨rfl, fun m => rfl⟩
    · rw [bonus_dict_step_some _ _ _ _ _ _ hb hs]
      have hz : row_temps BOILER_PRICES LOW_DEDUCTION_BOILERS row = (0, 0, 0) := by
        rw [row_temps_some _ _ _ _ hb hs, hrow]
        exact calc_zero_of_unresolved _ _ _ h _ _ _ _
      rw [hz]
      constructor
      · rw [dict_rop_total_insert]
        ring
      · intro m
        rw [dict_manager_total_insert]
        simp

/-- Witness for C5: the unknown product id "unknown" yields the zero
result and leaves the ROP total of a concrete run unchanged. -/
theorem C5_zero_price_skip_witness :
    calculate_boiler_bonus BOILER_PRICES LOW_DEDUCTION_BOILERS "unknown"
      "наличные" 0 0 1 = (0, 0, 0) ∧
    dict_rop_total (bonus_dict BOILER_PRICES LOW_DEDUCTION_BOILERS ["Alice"]
        ([] ++ [w5_row])) =
      dict_rop_total (bonus_dict BOILER_PRICES LOW_DEDUCTION_BOILERS ["Alice"] []) :=
  have h := C5_zero_price_skip "unknown" "наличные" 0 0 1 (Or.inl rfl)
  ⟨h.1, (h.2 ["Alice"] [] w5_row (by with_unfolding_all rfl)).1⟩

/-- C6: a transaction with a recognized product whose manager is not a
roster column still adds its ROP bonus to its `(date, order)` group, adds
nothing to any manager column, and the run still succeeds. -/
theorem C6_unknown_manager_drop (sales : List SalesRow) (cols : List String)
    (srows : List (List (String × ℚ))) (oklad : List (String × ℚ))
    (row : SalesRow) (s : String)
    (hb : row.boiler_name = some s) (hne : s ≠ "")
    (hrec : (catalog_lookup BOILER_PRICES s.trim).isSome = true)
    (hm : row.manager ∉ cols.filter (fun c => c ∉ exclude_cols))
    (hok : srows.head? = some oklad) (hrop : "employee ROP" ∈ cols) :
    (∃ L S, update_salary_model (sales ++ [row]) cols srows = Except.ok (L, S)) ∧
    dict_rop_total (bonus_dict BOILER_PRICES LOW_DEDUCTION_BOILERS
        (cols.filter (fun c => c ∉ exclude_cols)) (sales ++ [row])) =
      dict_rop_total (bonus_dict BOILER_PRICES LOW_DEDUCTION_BOILERS
        (cols.filter (fun c => c ∉ exclude_cols)) sales) +
        (row_temps BOILER_PRICES LOW_DEDUCTION_BOILERS row).2.1 ∧
    ∀ m, dict_manager_total m (bonus_dict BOILER_PRICES LOW_DEDUCTION_BOILERS
        (cols.filter (fun c => c ∉ exclude_cols)) (sales ++ [row])) =
      dict_manager_total m (bonus_dict BOILER_PRICES LOW_DEDUCTION_BOILERS
        (cols.filter (fun c => c ∉ exclude_cols)) sales) := by
  have hdict : bonus_dict BOILER_PRICES LOW_DEDUCTION_BOILERS
      (cols.filter (fun c => c ∉ exclude_cols)) (sales ++ [row]) =
      bonus_dict_insert (cols.filter (fun c => c ∉ exclude_cols)) row.date
        row.order row.manager
        (row_temps BOILER_PRICES LOW_DEDUCTION_BOILERS row).1
        (row_temps BOILER_PRICES LOW_DEDUCTION_BOILERS row).2.1
        (bonus_dict BOILER_PRICES LOW_DEDUCTION_BOILERS
          (cols.filter (fun c => c ∉ exclude_cols)) sales) := by
    rw [bonus_dict_append_single]
    exact bonus_dict_step_some _ _ _ _ _ _ hb hne
  refine ⟨?_, ?_, ?_⟩
  · have hnil : bonus_dict BOILER_PRICES LOW_DEDUCTION_BOILERS
        (cols.filter (fun c => c ∉ exclude_cols)) (sales ++ [row]) ≠ [] := by
      rw [hdict]
      exact bonus_dict_insert_ne_nil _ _ _ _ _ _ _
    have hemp : (ledger_of_dict cols (bonus_dict BOILER_PRICES
        LOW_DEDUCTION_BOILERS (cols.filter (fun c => c ∉ exclude_cols))
        (sales ++ [row]))).isEmpty = false := by
      unfold ledger_of_dict
      rcases hx : bonus_dict BOILER_PRICES LOW_DEDUCTION_BOILERS
          (cols.filter (fun c => c ∉ exclude_cols)) (sales ++ [row]) with _ | ⟨p, l⟩
      · exact absurd hx hnil
      · simp
    simp only [update_salary_model, hok, if_pos hrop]
    rw [hemp]
    exact ⟨_, _, rfl⟩
  · rw [hdict, dict_rop_total_insert]
  · intro m
    have hcond : ¬(row.manager ∈ cols.filter (fun c => c ∉ exclude_cols) ∧
        row.manager = m) := fun hc => hm hc.1
    rw [hdict, dict_manager_total_insert, if_neg hcond, add_zero]

/-- Witness for C6: a sale of `alseit_25` credited to "Bob", absent from
the roster columns; the ROP total grows by the row's ROP bonus and
"Alice"'s total is unchanged. -/
theorem C6_unknown_manager_drop_witness :
    dict_rop_total (bonus_dict BOILER_PRICES LOW_DEDUCTION_BOILERS
        (w6_cols.filter (fun c => c ∉ exclude_cols)) ([] ++ [w6_row])) =
      dict_rop_total (bonus_dict BOILER_PRICES LOW_DEDUCTION_BOILERS
        (w6_cols.filter (fun c => c ∉ exclude_cols)) []) +
        (row_temps BOILER_PRICES LOW_DEDUCTION_BOILERS w6_row).2.1 ∧
    dict_manager_total "Alice" (bonus_dict BOILER_PRICES LOW_DEDUCTION_BOILERS
        (w6_cols.filter (fun c => c ∉ exclude_cols)) ([] ++ [w6_row])) =
      dict_manager_total "Alice" (bonus_dict BOILER_PRICES
        LOW_DEDUCTION_BOILERS (w6_cols.filter (fun c => c ∉ exclude_cols)) []) :=
  have h := C6_unknown_manager_drop [] w6_cols [w6_oklad] w6_oklad w6_row
    "alseit_25" rfl (by decide) (by with_unfolding_all rfl) (by decide) rfl
    (by decide)
  ⟨h.2.1, h.2.2 "Alice"⟩

/-- C7 counterexample: the sale row `w7_row` carries the sheet price 1,
yet the computed manager bonus is derived from the catalog price 870 000;
it differs from what the claimed `unit_price * quantity` base would
give. -/
theorem C7_override_counterexample :
    (row_temps BOILER_PRICES LOW_DEDUCTION_BOILERS w7_row).1 =
      (870000 * 1 - 50000) * MANAGER_BONUS_RATE ∧
    (row_temps BOILER_PRICES LOW_DEDUCTION_BOILERS w7_row).1 ≠
      (w7_row.price.getD 0 * w7_row.quantity.getD 1 - 50000) *
        MANAGER_BONUS_RATE := by
  constructor
  · with_unfolding_all rfl
  · have h1 : (row_temps BOILER_PRICES LOW_DEDUCTION_BOILERS w7_row).1 = 41000 := by
      with_unfolding_all rfl
    have h2 : w7_row.price.getD 0 = 1 := rfl
    have h3 : w7_row.quantity.getD 1 = 1 := rfl
    rw [h1, h2, h3]
    unfold MANAGER_BONUS_RATE
    norm_num

/-- C7 amended: the `salary_folder` bonus pipeline derives the unit price
and purchase cost exclusively from the catalog: the sales sheet's `price`
and `purchase` cells are ignored entirely (there is no override, and no
fallback behavior). -/
theorem C7_price_from_catalog_only (row : SalesRow) (p pc : Option ℚ) :
    row_temps BOILER_PRICES LOW_DEDUCTION_BOILERS { row with price := p } =
      row_temps BOILER_PRICES LOW_DEDUCTION_BOILERS row ∧
    row_temps BOILER_PRICES LOW_DEDUCTION_BOILERS { row with purchase := pc } =
      row_temps BOILER_PRICES LOW_DEDUCTION_BOILERS row := by
  cases row
  exact ⟨rfl, rfl⟩

/-- C8: the two coexisting bonus rules disagree: on a sale of `alseit_25`
(quantity 1, cash, no delivery, sheet price equal to the catalog price
870 000) the product-tier rule pays the manager 41 000 while the
price-threshold/VAT rule pays 31 540. -/
theorem C8_two_bonus_rules_diverge :
    (calculate_boiler_bonus BOILER_PRICES LOW_DEDUCTION_BOILERS "alseit_25"
      "наличные" 0 0 1).1 = 41000 ∧
    (threshold_bonus 870000 566500 1 none).1 = 31540 ∧
    (41000 : ℚ) ≠ 31540 := by
  refine ⟨?_, ?_, by norm_num⟩
  · with_unfolding_all rfl
  · with_unfolding_all rfl

/-- C10: the monthly profit report never returns a negative value — the
result is clamped by `max(0.0, net profit - office expenses)` — although
a loss-making month has a negative pre-clamp sum and the per-transaction
calculator itself produces negative net profit (spec's loss scenario:
1 000 000 − 40 000 − 45 000 − 950 000 = −35 000). -/
theorem C10_monthly_profit_clamped :
    (∀ (rows : List GrossRow) (office : ℚ),
      0 ≤ get_gross_profit_model rows office) ∧
    gross_profit_row loss_row < 0 ∧
    get_gross_profit_model [loss_row] 0 = 0 ∧
    (calculate_boiler_bonus loss_catalog LOW_DEDUCTION_BOILERS "X" "наличные"
      0 0 1).2.2 = 1000000 - 40000 - 45000 - 950000 - 0 := by
  have hlr : gross_profit_row loss_row = -105800 := by
    with_unfolding_all rfl
  refine ⟨?_, ?_, ?_, ?_⟩
  · intro rows office
    unfold get_gross_profit_model
    split
    · exact le_refl 0
    · exact le_max_left 0 _
  · rw [hlr]
    norm_num
  · simp only [get_gross_profit_model, List.isEmpty_cons, List.map_cons,
      List.map_nil, List.sum_cons, List.sum_nil, hlr]
    norm_num
  · with_unfolding_all rfl
